import Mathlib

/-!
# Hand-Magic: verification of the gesture classifier and particle engine

Shallow embedding of the core of the Hand-Magic repository:
* `src/utils/gestureLogic.ts` — the single-hand gesture classifier
  (`distance`, `isFingerExtended`, `detectGesture`);
* `src/components/HandParticlesScene.tsx` — the per-particle physics tick
  (`animate`), the color update, the double-palm debouncer (`predict`), the
  per-tick hand-state update, and the particle-system construction
  (`initThree`).

Numbers are modelled as real numbers.  The one place where the source's IEEE
arithmetic can produce a non-finite value — dividing a force direction by a
zero particle-to-hand distance (`0/0` is NaN) — is modelled explicitly: the
per-particle physics step returns an `Option`, with `none` standing for "some
component became NaN/∞".
-/

namespace HandMagic

noncomputable section
open Classical

/-- 3D vector with real components, standing for both the source's
`THREE.Vector3` values and the per-particle buffer triples. -/
@[ext]
structure Vec3 where
  x : ℝ
  y : ℝ
  z : ℝ

/-- A tracked hand joint, from `src/types.ts` (`HandLandmark`): a 3D point. -/
structure HandLandmark where
  x : ℝ
  y : ℝ
  z : ℝ

/-- Default landmark used for (unreachable) out-of-range list accesses. -/
def originLm : HandLandmark := ⟨0, 0, 0⟩

/-- The gesture categories, from `src/types.ts` (`GestureType`). -/
inductive GestureType where
  | NONE
  | OPEN_HAND
  | CLOSED_FIST
  | VICTORY
  | PINCH
  | THUMBS_UP
  | ROCK_ON
  | DOUBLE_PALM
deriving DecidableEq

/-- The classifier's result record `{ type, strength }` from
`detectGesture` in `src/utils/gestureLogic.ts`. -/
structure GestureResult where
  type : GestureType
  strength : ℝ

/-- Euclidean distance between two joints
(`distance` in `src/utils/gestureLogic.ts`). -/
def distance (p1 p2 : HandLandmark) : ℝ :=
  Real.sqrt ((p1.x - p2.x) ^ 2 + (p1.y - p2.y) ^ 2 + (p1.z - p2.z) ^ 2)

/-- `isFingerExtended` from `src/utils/gestureLogic.ts`: a digit is extended
iff its tip is farther from the wrist (landmark 0) than its proximal joint. -/
def isFingerExtended (landmarks : List HandLandmark) (tipIdx pipIdx : ℕ) : Bool :=
  let wrist := landmarks.getD 0 originLm
  let tip := landmarks.getD tipIdx originLm
  let pip := landmarks.getD pipIdx originLm
  decide (distance wrist pip < distance wrist tip)

/-- `detectGesture` from `src/utils/gestureLogic.ts`, translated branch by
branch (nested conditionals, first match winning). -/
def detectGesture (landmarks : List HandLandmark) : GestureResult :=
  if landmarks.length < 21 then ⟨.NONE, 0⟩ else
  let thumbTip := landmarks.getD 4 originLm
  let indexTip := landmarks.getD 8 originLm
  let pinchDist := distance thumbTip indexTip
  if pinchDist < 0.05 then ⟨.PINCH, max 0 (1 - pinchDist * 20)⟩ else
  let thumbExt := isFingerExtended landmarks 4 2
  let indexExt := isFingerExtended landmarks 8 6
  let middleExt := isFingerExtended landmarks 12 10
  let ringExt := isFingerExtended landmarks 16 14
  let pinkyExt := isFingerExtended landmarks 20 18
  let extendedCount :=
    ([thumbExt, indexExt, middleExt, ringExt, pinkyExt].filter (fun b => b)).length
  if extendedCount = 0 then ⟨.CLOSED_FIST, 1⟩ else
  if indexExt && pinkyExt && !middleExt && !ringExt then ⟨.ROCK_ON, 1⟩ else
  if indexExt && middleExt && !ringExt && !pinkyExt then ⟨.VICTORY, 1⟩ else
  if thumbExt && !indexExt && !middleExt && !ringExt && !pinkyExt then ⟨.THUMBS_UP, 1⟩ else
  if 4 ≤ extendedCount then ⟨.OPEN_HAND, 1⟩ else
  ⟨.NONE, 0⟩

/-- First-match evaluation of an ordered rule list: the default result is
(NONE, 0); otherwise the result of the first rule whose condition holds. -/
def firstMatch : List (Bool × GestureResult) → GestureResult
  | [] => ⟨.NONE, 0⟩
  | r :: rest => if r.1 then r.2 else firstMatch rest

/-- The classifier as the spec's §4.2 words it: the ordered rule list
PINCH, CLOSED_FIST, ROCK_ON, VICTORY, THUMBS_UP, OPEN_HAND evaluated
first-match-wins, with default (NONE, 0), after the under-21-joints guard. -/
def detectGestureSpec (landmarks : List HandLandmark) : GestureResult :=
  if landmarks.length < 21 then ⟨.NONE, 0⟩ else
  let pinchDist := distance (landmarks.getD 4 originLm) (landmarks.getD 8 originLm)
  let thumbExt := isFingerExtended landmarks 4 2
  let indexExt := isFingerExtended landmarks 8 6
  let middleExt := isFingerExtended landmarks 12 10
  let ringExt := isFingerExtended landmarks 16 14
  let pinkyExt := isFingerExtended landmarks 20 18
  let extendedCount :=
    ([thumbExt, indexExt, middleExt, ringExt, pinkyExt].filter (fun b => b)).length
  firstMatch
    [ (decide (pinchDist < 0.05), ⟨.PINCH, max 0 (1 - pinchDist * 20)⟩),
      (decide (extendedCount = 0), ⟨.CLOSED_FIST, 1⟩),
      (indexExt && pinkyExt && !middleExt && !ringExt, ⟨.ROCK_ON, 1⟩),
      (indexExt && middleExt && !ringExt && !pinkyExt, ⟨.VICTORY, 1⟩),
      (thumbExt && !indexExt && !middleExt && !ringExt && !pinkyExt, ⟨.THUMBS_UP, 1⟩),
      (decide (4 ≤ extendedCount), ⟨.OPEN_HAND, 1⟩) ]

/-- Collinear landmarks: distance reduces to the absolute x-difference. -/
lemma distance_x (a b : ℝ) :
    distance ⟨a, 0, 0⟩ ⟨b, 0, 0⟩ = |a - b| := by
  simp only [distance]
  rw [show (a - b) ^ 2 + ((0:ℝ) - 0) ^ 2 + ((0:ℝ) - 0) ^ 2 = (a - b) ^ 2 by ring]
  exact Real.sqrt_sq_eq_abs _

lemma distance_nonneg (p q : HandLandmark) : 0 ≤ distance p q :=
  Real.sqrt_nonneg _

/-- A 21-joint pose, all joints on the x-axis, in which the pinch condition
holds (thumb tip = index tip) while all five digits are extended
(every tip at x = 2, every proximal joint at x = 1). -/
def pose1 : List HandLandmark :=
  [⟨0, 0, 0⟩, ⟨0, 0, 0⟩, ⟨1, 0, 0⟩, ⟨0, 0, 0⟩, ⟨2, 0, 0⟩,
   ⟨0, 0, 0⟩, ⟨1, 0, 0⟩, ⟨0, 0, 0⟩, ⟨2, 0, 0⟩, ⟨0, 0, 0⟩,
   ⟨1, 0, 0⟩, ⟨0, 0, 0⟩, ⟨2, 0, 0⟩, ⟨0, 0, 0⟩, ⟨1, 0, 0⟩,
   ⟨0, 0, 0⟩, ⟨2, 0, 0⟩, ⟨0, 0, 0⟩, ⟨1, 0, 0⟩, ⟨0, 0, 0⟩, ⟨2, 0, 0⟩]

/-- A degenerate 21-joint pose with every joint at the origin
(pinch distance 0). -/
def poseZero : List HandLandmark :=
  [⟨0, 0, 0⟩, ⟨0, 0, 0⟩, ⟨0, 0, 0⟩, ⟨0, 0, 0⟩, ⟨0, 0, 0⟩,
   ⟨0, 0, 0⟩, ⟨0, 0, 0⟩, ⟨0, 0, 0⟩, ⟨0, 0, 0⟩, ⟨0, 0, 0⟩,
   ⟨0, 0, 0⟩, ⟨0, 0, 0⟩, ⟨0, 0, 0⟩, ⟨0, 0, 0⟩, ⟨0, 0, 0⟩,
   ⟨0, 0, 0⟩, ⟨0, 0, 0⟩, ⟨0, 0, 0⟩, ⟨0, 0, 0⟩, ⟨0, 0, 0⟩, ⟨0, 0, 0⟩]

/-- C1: for every 21-joint pose whose thumb-tip-to-index-tip distance is
below 0.05, `detectGesture` returns PINCH regardless of later rules, and the
classifier equals the first-match evaluation of the ordered rule list
PINCH, CLOSED_FIST, ROCK_ON, VICTORY, THUMBS_UP, OPEN_HAND, NONE. -/
theorem detectGesture_precedence :
    (∀ landmarks, detectGesture landmarks = detectGestureSpec landmarks) ∧
    (∀ landmarks : List HandLandmark, landmarks.length = 21 →
      distance (landmarks.getD 4 originLm) (landmarks.getD 8 originLm) < 0.05 →
      (detectGesture landmarks).type = GestureType.PINCH) := by
  constructor
  · intro l
    simp only [detectGesture, detectGestureSpec, firstMatch, decide_eq_true_eq]
  · intro l hlen hd
    have hn : ¬ l.length < 21 := by omega
    simp only [detectGesture]
    rw [if_neg hn, if_pos hd]

/-- C1 witness: `pose1` has 21 joints, pinch distance 0 < 0.05 (while all
five digits are extended), and classifies as PINCH. -/
theorem detectGesture_precedence_witness :
    pose1.length = 21 ∧
    distance (pose1.getD 4 originLm) (pose1.getD 8 originLm) < 0.05 ∧
    (detectGesture pose1).type = GestureType.PINCH := by
  refine ⟨rfl, ?_, ?_⟩
  · rw [show pose1.getD 4 originLm = ⟨2, 0, 0⟩ from rfl,
        show pose1.getD 8 originLm = ⟨2, 0, 0⟩ from rfl, distance_x]
    norm_num [abs_lt]
  · exact detectGesture_precedence.2 pose1 rfl (by
      rw [show pose1.getD 4 originLm = ⟨2, 0, 0⟩ from rfl,
          show pose1.getD 8 originLm = ⟨2, 0, 0⟩ from rfl, distance_x]
      norm_num)

/-- C4: the classifier is total with a defined default on short input
(fewer than 21 joints gives (NONE, 0)); strength always lies in [0,1];
every non-NONE, non-PINCH category reports strength exactly 1; NONE reports
strength 0; DOUBLE_PALM is never returned. -/
theorem detectGesture_contract (l : List HandLandmark) :
    (l.length < 21 → detectGesture l = ⟨GestureType.NONE, 0⟩) ∧
    0 ≤ (detectGesture l).strength ∧ (detectGesture l).strength ≤ 1 ∧
    ((detectGesture l).type ≠ GestureType.NONE → (detectGesture l).type ≠ GestureType.PINCH →
      (detectGesture l).strength = 1) ∧
    ((detectGesture l).type = GestureType.NONE → (detectGesture l).strength = 0) ∧
    (detectGesture l).type ≠ GestureType.DOUBLE_PALM := by
  have hd := distance_nonneg (l.getD 4 originLm) (l.getD 8 originLm)
  simp only [detectGesture]
  split_ifs with h1 h2 h3 h4 h5 h6 h7 <;> simp_all

/-- C4 witness: the empty landmark list classifies as (NONE, 0). -/
theorem detectGesture_contract_witness :
    detectGesture [] = ⟨GestureType.NONE, 0⟩ :=
  (detectGesture_contract []).1 (by simp)

/-- C5: on a 21-joint pose the classifier returns PINCH exactly when the
thumb-tip-to-index-tip distance is strictly below 0.05 (so at distance
exactly 0.05 the result is not PINCH), and in the PINCH case the strength is
clamp(1 − distance×20, 0, 1). -/
theorem detectGesture_pinch_iff (l : List HandLandmark) (hlen : l.length = 21) :
    ((detectGesture l).type = GestureType.PINCH ↔
      distance (l.getD 4 originLm) (l.getD 8 originLm) < 0.05) ∧
    (distance (l.getD 4 originLm) (l.getD 8 originLm) < 0.05 →
      (detectGesture l).strength =
        max 0 (min 1 (1 - distance (l.getD 4 originLm) (l.getD 8 originLm) * 20))) := by
  have hd := distance_nonneg (l.getD 4 originLm) (l.getD 8 originLm)
  have hn : ¬ l.length < 21 := by omega
  constructor
  · constructor
    · intro hty
      by_contra hlt
      simp only [detectGesture] at hty
      rw [if_neg hn, if_neg hlt] at hty
      split_ifs at hty
    · intro hlt
      simp only [detectGesture]
      rw [if_neg hn, if_pos hlt]
  · intro hlt
    simp only [detectGesture]
    rw [if_neg hn, if_pos hlt]
    have hmin : min 1 (1 - distance (l.getD 4 originLm) (l.getD 8 originLm) * 20) =
        1 - distance (l.getD 4 originLm) (l.getD 8 originLm) * 20 :=
      min_eq_right (by nlinarith)
    rw [hmin]

/-- C5 witness: the all-zero 21-joint pose (pinch distance 0) classifies
as PINCH. -/
theorem detectGesture_pinch_iff_witness :
    (detectGesture poseZero).type = GestureType.PINCH :=
  (detectGesture_pinch_iff poseZero rfl).1.mpr (by
    rw [show poseZero.getD 4 originLm = ⟨0, 0, 0⟩ from rfl,
        show poseZero.getD 8 originLm = ⟨0, 0, 0⟩ from rfl, distance_x]
    norm_num [abs_lt])

/-- A 21-joint pose on the x-axis with every digit curled (tips at x = 0.5 or
0.52, proximal joints at x = 1) whose thumb tip and index tip are only 0.02
apart — so the pinch rule fires before the closed-fist rule. -/
def pose2 : List HandLandmark :=
  [⟨0, 0, 0⟩, ⟨0, 0, 0⟩, ⟨1, 0, 0⟩, ⟨0, 0, 0⟩, ⟨0.5, 0, 0⟩,
   ⟨0, 0, 0⟩, ⟨1, 0, 0⟩, ⟨0, 0, 0⟩, ⟨0.52, 0, 0⟩, ⟨0, 0, 0⟩,
   ⟨1, 0, 0⟩, ⟨0, 0, 0⟩, ⟨0.5, 0, 0⟩, ⟨0, 0, 0⟩, ⟨1, 0, 0⟩,
   ⟨0, 0, 0⟩, ⟨0.5, 0, 0⟩, ⟨0, 0, 0⟩, ⟨1, 0, 0⟩, ⟨0, 0, 0⟩, ⟨0.5, 0, 0⟩]

/-- A 21-joint pose on the x-axis with every digit curled (tips at x = 0.5 or
0.6, proximal joints at x = 1) and thumb tip 0.1 away from the index tip, so
the pinch rule does not fire. -/
def pose3 : List HandLandmark :=
  [⟨0, 0, 0⟩, ⟨0, 0, 0⟩, ⟨1, 0, 0⟩, ⟨0, 0, 0⟩, ⟨0.5, 0, 0⟩,
   ⟨0, 0, 0⟩, ⟨1, 0, 0⟩, ⟨0, 0, 0⟩, ⟨0.6, 0, 0⟩, ⟨0, 0, 0⟩,
   ⟨1, 0, 0⟩, ⟨0, 0, 0⟩, ⟨0.5, 0, 0⟩, ⟨0, 0, 0⟩, ⟨1, 0, 0⟩,
   ⟨0, 0, 0⟩, ⟨0.5, 0, 0⟩, ⟨0, 0, 0⟩, ⟨1, 0, 0⟩, ⟨0, 0, 0⟩, ⟨0.5, 0, 0⟩]

/-- C9 counterexample: `pose2` has all five digits' tip-to-wrist distance
strictly below the proximal-joint-to-wrist distance (so extendedCount = 0),
yet `detectGesture` returns PINCH, not CLOSED_FIST, because the pinch rule
has precedence. -/
theorem closed_fist_counterexample :
    pose2.length = 21 ∧
    distance (pose2.getD 0 originLm) (pose2.getD 4 originLm) <
      distance (pose2.getD 0 originLm) (pose2.getD 2 originLm) ∧
    distance (pose2.getD 0 originLm) (pose2.getD 8 originLm) <
      distance (pose2.getD 0 originLm) (pose2.getD 6 originLm) ∧
    distance (pose2.getD 0 originLm) (pose2.getD 12 originLm) <
      distance (pose2.getD 0 originLm) (pose2.getD 10 originLm) ∧
    distance (pose2.getD 0 originLm) (pose2.getD 16 originLm) <
      distance (pose2.getD 0 originLm) (pose2.getD 14 originLm) ∧
    distance (pose2.getD 0 originLm) (pose2.getD 20 originLm) <
      distance (pose2.getD 0 originLm) (pose2.getD 18 originLm) ∧
    (detectGesture pose2).type = GestureType.PINCH ∧
    (detectGesture pose2).type ≠ GestureType.CLOSED_FIST := by
  have hpinch : distance (pose2.getD 4 originLm) (pose2.getD 8 originLm) < 0.05 := by
    rw [show pose2.getD 4 originLm = ⟨0.5, 0, 0⟩ from rfl,
        show pose2.getD 8 originLm = ⟨0.52, 0, 0⟩ from rfl, distance_x]
    norm_num [abs_lt]
  have hres : (detectGesture pose2).type = GestureType.PINCH := by
    simp only [detectGesture]
    rw [if_neg (by decide), if_pos hpinch]
  refine ⟨rfl, ?_, ?_, ?_, ?_, ?_, hres, ?_⟩
  · rw [show pose2.getD 0 originLm = ⟨0, 0, 0⟩ from rfl,
        show pose2.getD 4 originLm = ⟨0.5, 0, 0⟩ from rfl,
        show pose2.getD 2 originLm = ⟨1, 0, 0⟩ from rfl, distance_x, distance_x]
    norm_num [abs_lt]
  · rw [show pose2.getD 0 originLm = ⟨0, 0, 0⟩ from rfl,
        show pose2.getD 8 originLm = ⟨0.52, 0, 0⟩ from rfl,
        show pose2.getD 6 originLm = ⟨1, 0, 0⟩ from rfl, distance_x, distance_x]
    norm_num [abs_lt]
  · rw [show pose2.getD 0 originLm = ⟨0, 0, 0⟩ from rfl,
        show pose2.getD 12 originLm = ⟨0.5, 0, 0⟩ from rfl,
        show pose2.getD 10 originLm = ⟨1, 0, 0⟩ from rfl, distance_x, distance_x]
    norm_num [abs_lt]
  · rw [show pose2.getD 0 originLm = ⟨0, 0, 0⟩ from rfl,
        show pose2.getD 16 originLm = ⟨0.5, 0, 0⟩ from rfl,
        show pose2.getD 14 originLm = ⟨1, 0, 0⟩ from rfl, distance_x, distance_x]
    norm_num [abs_lt]
  · rw [show pose2.getD 0 originLm = ⟨0, 0, 0⟩ from rfl,
        show pose2.getD 20 originLm = ⟨0.5, 0, 0⟩ from rfl,
        show pose2.getD 18 originLm = ⟨1, 0, 0⟩ from rfl, distance_x, distance_x]
    norm_num [abs_lt]
  · rw [hres]
    simp

/-- C9 amended: a digit counts as extended iff its tip is strictly farther
from the wrist than its proximal joint; and every 21-joint pose whose five
digits are all curled in this sense *and whose pinch distance is at least
0.05* classifies as CLOSED_FIST with strength 1. -/
theorem extension_closed_fist :
    (∀ (l : List HandLandmark) (tipIdx pipIdx : ℕ),
      isFingerExtended l tipIdx pipIdx = true ↔
        distance (l.getD 0 originLm) (l.getD pipIdx originLm) <
          distance (l.getD 0 originLm) (l.getD tipIdx originLm)) ∧
    (∀ l : List HandLandmark, l.length = 21 →
      ¬ distance (l.getD 4 originLm) (l.getD 8 originLm) < 0.05 →
      distance (l.getD 0 originLm) (l.getD 4 originLm) <
        distance (l.getD 0 originLm) (l.getD 2 originLm) →
      distance (l.getD 0 originLm) (l.getD 8 originLm) <
        distance (l.getD 0 originLm) (l.getD 6 originLm) →
      distance (l.getD 0 originLm) (l.getD 12 originLm) <
        distance (l.getD 0 originLm) (l.getD 10 originLm) →
      distance (l.getD 0 originLm) (l.getD 16 originLm) <
        distance (l.getD 0 originLm) (l.getD 14 originLm) →
      distance (l.getD 0 originLm) (l.getD 20 originLm) <
        distance (l.getD 0 originLm) (l.getD 18 originLm) →
      detectGesture l = ⟨GestureType.CLOSED_FIST, 1⟩) := by
  constructor
  · intro l tipIdx pipIdx
    simp only [isFingerExtended, decide_eq_true_eq]
  · intro l hlen hp h4 h8 h12 h16 h20
    have hn : ¬ l.length < 21 := by omega
    have e4 : isFingerExtended l 4 2 = false := by
      simp only [isFingerExtended, decide_eq_false_iff_not, not_lt]
      exact le_of_lt h4
    have e8 : isFingerExtended l 8 6 = false := by
      simp only [isFingerExtended, decide_eq_false_iff_not, not_lt]
      exact le_of_lt h8
    have e12 : isFingerExtended l 12 10 = false := by
      simp only [isFingerExtended, decide_eq_false_iff_not, not_lt]
      exact le_of_lt h12
    have e16 : isFingerExtended l 16 14 = false := by
      simp only [isFingerExtended, decide_eq_false_iff_not, not_lt]
      exact le_of_lt h16
    have e20 : isFingerExtended l 20 18 = false := by
      simp only [isFingerExtended, decide_eq_false_iff_not, not_lt]
      exact le_of_lt h20
    simp only [detectGesture]
    rw [if_neg hn, if_neg hp]
    simp only [e4, e8, e12, e16, e20]
    norm_num [List.filter]

/-- C9 amended witness: `pose3` (all digits curled, pinch distance 0.1)
classifies as (CLOSED_FIST, 1). -/
theorem extension_closed_fist_witness :
    detectGesture pose3 = ⟨GestureType.CLOSED_FIST, 1⟩ :=
  extension_closed_fist.2 pose3 rfl
    (by
      rw [show pose3.getD 4 originLm = ⟨0.5, 0, 0⟩ from rfl,
          show pose3.getD 8 originLm = ⟨0.6, 0, 0⟩ from rfl, distance_x]
      norm_num [le_abs])
    (by
      rw [show pose3.getD 0 originLm = ⟨0, 0, 0⟩ from rfl,
          show pose3.getD 4 originLm = ⟨0.5, 0, 0⟩ from rfl,
          show pose3.getD 2 originLm = ⟨1, 0, 0⟩ from rfl, distance_x, distance_x]
      norm_num [abs_lt])
    (by
      rw [show pose3.getD 0 originLm = ⟨0, 0, 0⟩ from rfl,
          show pose3.getD 8 originLm = ⟨0.6, 0, 0⟩ from rfl,
          show pose3.getD 6 originLm = ⟨1, 0, 0⟩ from rfl, distance_x, distance_x]
      norm_num [abs_lt])
    (by
      rw [show pose3.getD 0 originLm = ⟨0, 0, 0⟩ from rfl,
          show pose3.getD 12 originLm = ⟨0.5, 0, 0⟩ from rfl,
          show pose3.getD 10 originLm = ⟨1, 0, 0⟩ from rfl, distance_x, distance_x]
      norm_num [abs_lt])
    (by
      rw [show pose3.getD 0 originLm = ⟨0, 0, 0⟩ from rfl,
          show pose3.getD 16 originLm = ⟨0.5, 0, 0⟩ from rfl,
          show pose3.getD 14 originLm = ⟨1, 0, 0⟩ from rfl, distance_x, distance_x]
      norm_num [abs_lt])
    (by
      rw [show pose3.getD 0 originLm = ⟨0, 0, 0⟩ from rfl,
          show pose3.getD 20 originLm = ⟨0.5, 0, 0⟩ from rfl,
          show pose3.getD 18 originLm = ⟨1, 0, 0⟩ from rfl, distance_x, distance_x]
      norm_num [abs_lt])

/-- The double-palm debouncer from `predict` in
`src/components/HandParticlesScene.tsx` (lines 298–319), for a tick on which
two hands were detected and classified as `g1`, `g2`.  The timer uses the
source's sentinel convention: 0 means "unset".  Returns (fired?, new timer).
The source reads the clock twice (`performance.now()`); both reads are
modelled as the same tick timestamp `now`. -/
def doublePalmStep (g1 g2 : GestureType) (now timer : ℝ) : Bool × ℝ :=
  if g1 = GestureType.OPEN_HAND ∧ g2 = GestureType.OPEN_HAND then
    if now - timer < 1000 ∧ 0 < timer then (true, 0)
    else if timer = 0 then (false, now)
    else (false, timer)
  else
    if 1000 < now - timer then (false, 0) else (false, timer)

/-- Run the debouncer over a list of tick timestamps on each of which both
hands classified as OPEN_HAND, counting fired triggers;
returns (fire count, final timer). -/
def doublePalmRun (times : List ℝ) (timer : ℝ) : ℕ × ℝ :=
  times.foldl
    (fun acc t =>
      let s := doublePalmStep GestureType.OPEN_HAND GestureType.OPEN_HAND t acc.2
      (acc.1 + (if s.1 then 1 else 0), s.2))
    (0, timer)

/-- C3 counterexample: on a both-hands-OPEN_HAND tick with the timer set to
100 and now = 1200 (a stale window, now − timer = 1100 ≥ 1000) the code does
not fire — but it also leaves the timer at 100 instead of restarting the
window at the current timestamp 1200 as the claim states. -/
theorem double_palm_stale_counterexample :
    doublePalmStep GestureType.OPEN_HAND GestureType.OPEN_HAND 1200 100 = (false, 100) ∧
    (100 : ℝ) ≠ 1200 := by
  constructor
  · unfold doublePalmStep
    rw [if_pos ⟨rfl, rfl⟩, if_neg (by norm_num), if_neg (by norm_num)]
  · norm_num

/-- C3 amended: on a tick where both hands classify as OPEN_HAND, the timer
is set (> 0), and now − timer ≥ 1000 ms, the detector does not fire and
leaves the timer unchanged (the stale value persists; it is not restarted at
the current timestamp). -/
theorem double_palm_stale (now timer : ℝ) (hset : 0 < timer)
    (hstale : 1000 ≤ now - timer) :
    doublePalmStep GestureType.OPEN_HAND GestureType.OPEN_HAND now timer =
      (false, timer) := by
  unfold doublePalmStep
  rw [if_pos ⟨rfl, rfl⟩, if_neg (by rintro ⟨h, -⟩; linarith),
      if_neg (by linarith)]

/-- C3 amended witness: at now = 1200, timer = 100 the stale-window tick
neither fires nor changes the timer. -/
theorem double_palm_stale_witness :
    (0 : ℝ) < 100 ∧ (1000 : ℝ) ≤ 1200 - 100 ∧
    doublePalmStep GestureType.OPEN_HAND GestureType.OPEN_HAND 1200 100 =
      (false, 100) :=
  ⟨by norm_num, by norm_num,
    double_palm_stale 1200 100 (by norm_num) (by norm_num)⟩

/-- C8 counterexample: starting from an unset timer, both-open ticks at
t = 0 and t = 500 fire the trigger zero times, not once — at literal
timestamp 0 the first tick stores 0 into the timer, which is the "unset"
sentinel, so the window never opens. -/
theorem double_palm_debounce_counterexample :
    (doublePalmRun [0, 500] 0).1 = 0 ∧ (doublePalmRun [0, 500] 0).1 ≠ 1 := by
  have s1 : doublePalmStep GestureType.OPEN_HAND GestureType.OPEN_HAND 0 0 =
      (false, 0) := by
    unfold doublePalmStep
    rw [if_pos ⟨rfl, rfl⟩, if_neg (by rintro ⟨-, h⟩; exact lt_irrefl 0 h),
        if_pos rfl]
  have s2 : doublePalmStep GestureType.OPEN_HAND GestureType.OPEN_HAND 500 0 =
      (false, 500) := by
    unfold doublePalmStep
    rw [if_pos ⟨rfl, rfl⟩, if_neg (by rintro ⟨-, h⟩; exact lt_irrefl 0 h),
        if_pos rfl]
  have h : doublePalmRun [0, 500] 0 = (0, 500) := by
    simp [doublePalmRun, s1, s2]
  rw [h]
  exact ⟨rfl, by norm_num⟩

/-- C8 amended: for any positive start time t0, from an unset timer two
both-open ticks at t0 and t0 + 500 fire the trigger exactly once (on the
second tick, which resets the timer to unset), while ticks at t0 and
t0 + 1500 fire zero times. -/
theorem double_palm_debounce (t0 : ℝ) (hpos : 0 < t0) :
    (doublePalmRun [t0, t0 + 500] 0).1 = 1 ∧
    (doublePalmRun [t0, t0 + 500] 0).2 = 0 ∧
    (doublePalmRun [t0, t0 + 1500] 0).1 = 0 := by
  have step1 : doublePalmStep GestureType.OPEN_HAND GestureType.OPEN_HAND t0 0 =
      (false, t0) := by
    unfold doublePalmStep
    rw [if_pos ⟨rfl, rfl⟩, if_neg (by rintro ⟨-, h⟩; exact lt_irrefl 0 h),
        if_pos rfl]
  have step2 : doublePalmStep GestureType.OPEN_HAND GestureType.OPEN_HAND
      (t0 + 500) t0 = (true, 0) := by
    unfold doublePalmStep
    rw [if_pos ⟨rfl, rfl⟩, if_pos ⟨by linarith, hpos⟩]
  have step2' : doublePalmStep GestureType.OPEN_HAND GestureType.OPEN_HAND
      (t0 + 1500) t0 = (false, t0) := by
    unfold doublePalmStep
    rw [if_pos ⟨rfl, rfl⟩, if_neg (by rintro ⟨h, -⟩; linarith),
        if_neg (ne_of_gt hpos)]
  refine ⟨?_, ?_, ?_⟩ <;>
    simp [doublePalmRun, List.foldl, step1, step2, step2']

/-- C8 amended witness: at t0 = 100 the pair (100, 600) fires exactly once
ending with the timer unset, and the pair (100, 1600) fires zero times. -/
theorem double_palm_debounce_witness :
    (doublePalmRun [100, 100 + 500] 0).1 = 1 ∧
    (doublePalmRun [100, 100 + 500] 0).2 = 0 ∧
    (doublePalmRun [100, 100 + 1500] 0).1 = 0 :=
  double_palm_debounce 100 (by norm_num)

/-- World-space interaction bound (`BOUNDS` in
`src/components/HandParticlesScene.tsx`). -/
def BOUNDS : ℝ := 80

/-- Componentwise linear interpolation, as `THREE.Vector3.lerp`:
each component moves the fraction `t` of the way toward `b`. -/
def Vec3.lerp (a b : Vec3) (t : ℝ) : Vec3 :=
  ⟨a.x + (b.x - a.x) * t, a.y + (b.y - a.y) * t, a.z + (b.z - a.z) * t⟩

/-- The cross-tick interaction state mutated by `predict`
(the relevant fields of `sceneState` in `src/components/HandParticlesScene.tsx`). -/
structure PredictState where
  handPosition : Vec3
  gesture : GestureType
  gestureStrength : ℝ
  doublePalmTimer : ℝ
  isHandPresent : Bool

/-- One tick of `predict` (lines 274–324 of
`src/components/HandParticlesScene.tsx`): given the landmark lists of the
detected hands (0, 1, or 2) and the tick timestamp, update the interaction
state; returns the new state and whether the DOUBLE_PALM trigger fired.
The smoothed hand position, gesture, and strength are computed from
`hands[0]`; the double-palm check runs only when exactly two hands are
present. -/
def predictStep (hands : List (List HandLandmark)) (now : ℝ)
    (st : PredictState) : PredictState × Bool :=
  if 0 < hands.length then
    let lm := hands.getD 0 []
    let p9 := lm.getD 9 originLm
    let x := (0.5 - p9.x) * BOUNDS * 2.5
    let y := (0.5 - p9.y) * BOUNDS * 2.5
    let z := -p9.z * BOUNDS * 2
    let hp := Vec3.lerp st.handPosition ⟨x, y, z⟩ 0.2
    let g := detectGesture lm
    let dp :=
      if hands.length = 2 then
        doublePalmStep (detectGesture (hands.getD 0 [])).type
          (detectGesture (hands.getD 1 [])).type now st.doublePalmTimer
      else (false, st.doublePalmTimer)
    (⟨hp, g.type, g.strength, dp.2, true⟩, dp.1)
  else
    (⟨st.handPosition, GestureType.NONE, st.gestureStrength,
      st.doublePalmTimer, false⟩, false)

/-- C10: when two hands are supplied, the smoothed hand position, the
current gesture, its strength, and the presence flag — the state that drives
the particle forces and the reported gesture — are exactly what the first
hand alone would produce; the second hand can influence only the double-palm
timer and trigger. -/
theorem predict_first_hand_only (h0 h1 : List HandLandmark) (now : ℝ)
    (st : PredictState) :
    (predictStep [h0, h1] now st).1.handPosition =
      (predictStep [h0] now st).1.handPosition ∧
    (predictStep [h0, h1] now st).1.gesture =
      (predictStep [h0] now st).1.gesture ∧
    (predictStep [h0, h1] now st).1.gestureStrength =
      (predictStep [h0] now st).1.gestureStrength ∧
    (predictStep [h0, h1] now st).1.isHandPresent =
      (predictStep [h0] now st).1.isHandPresent := by
  unfold predictStep
  rw [if_pos (by norm_num : 0 < ([h0, h1] : List (List HandLandmark)).length),
      if_pos (by norm_num : 0 < ([h0] : List (List HandLandmark)).length)]
  exact ⟨rfl, rfl, rfl, rfl⟩

/-- The per-frame delta-time clamp (line 77 of
`src/components/HandParticlesScene.tsx`): the elapsed seconds are capped
at 0.1. -/
def clampDt (raw : ℝ) : ℝ := min raw 0.1

/-- The particle-to-hand distance computed at the top of the
hand-interaction block of `animate` (lines 131–135 of
`src/components/HandParticlesScene.tsx`):
`Math.sqrt(dx*dx + dy*dy + dz*dz)` for the componentwise differences of the
particle position and the smoothed hand position. -/
def handDist (p mouse : Vec3) : ℝ :=
  Real.sqrt ((p.x - mouse.x) * (p.x - mouse.x) +
    (p.y - mouse.y) * (p.y - mouse.y) + (p.z - mouse.z) * (p.z - mouse.z))

/-- One particle's velocity/position update for one tick of `animate`
(lines 105–245 of `src/components/HandParticlesScene.tsx`): home-restoring
force, then the gesture-selected hand force (only while a hand is present),
then the 0.92 damping, then semi-implicit Euler integration.

`i` is the particle index (used as a phase offset); `r1 r2 r3` stand for the
three `Math.random()` draws of the ROCK_ON branch.  The result is the pair
(new position, new velocity), or `none` when the source would divide the
force direction by a zero particle-to-hand distance (the CLOSED_FIST and
passive-repulse branches compute `dx/dist` with `dist = 0`, which is NaN in
the source's IEEE arithmetic, i.e. a non-finite velocity). -/
def particlePhysics (isHandPresent : Bool) (gesture : GestureType)
    (gestureStrength : ℝ) (mouse : Vec3) (time : ℝ) (i : ℕ) (r1 r2 r3 : ℝ)
    (p v h : Vec3) (dt : ℝ) : Option (Vec3 × Vec3) :=
  let vx := v.x + (h.x - p.x) * 1.5 * dt
  let vy := v.y + (h.y - p.y) * 1.5 * dt
  let vz := v.z + (h.z - p.z) * 1.5 * dt
  let afterHand : Option (ℝ × ℝ × ℝ) :=
    if isHandPresent then
      let dx := p.x - mouse.x
      let dy := p.y - mouse.y
      let dz := p.z - mouse.z
      let dist := handDist p mouse
      if gesture = GestureType.OPEN_HAND then
        if dist < 40 then
          let force := (40 - dist) * 1.5
          some (vx + -dy * force * 0.5 * dt - dx * 2.0 * dt,
                vy + dx * force * 0.5 * dt - dy * 2.0 * dt,
                vz + Real.sin (time * 5 + i) * force * dt - dz * 2.0 * dt)
        else some (vx, vy, vz)
      else if gesture = GestureType.CLOSED_FIST then
        if dist < 50 then
          if dist = 0 then none
          else
            let force := (50 - dist) * 20.0
            some (vx + dx / dist * force * dt,
                  vy + dy / dist * force * dt,
                  vz + dz / dist * force * dt)
        else some (vx, vy, vz)
      else if gesture = GestureType.PINCH then
        if dist < 60 then
          let strength := 150 * gestureStrength
          some (vx - dx * strength * dt, vy - dy * strength * dt,
                vz - dz * strength * dt)
        else some (vx, vy, vz)
      else if gesture = GestureType.VICTORY then
        if dist < 40 then
          some (vx, vy + Real.sin (p.x * 0.2 + time * 10) * 20 * dt, vz)
        else some (vx, vy, vz)
      else if gesture = GestureType.THUMBS_UP then
        if dist < 40 then
          let tx := Real.sin (time * 3 + i * 0.1) * 20
          let ty := Real.cos (time * 3 + i * 0.1) * 20
          some (vx + (mouse.x + tx - p.x) * 5 * dt,
                vy + (mouse.y + ty - p.y) * 5 * dt, vz)
        else some (vx, vy, vz)
      else if gesture = GestureType.ROCK_ON then
        if dist < 60 then
          some (vx + (r1 - 0.5) * 200 * dt, vy + (r2 - 0.5) * 200 * dt,
                vz + (r3 - 0.5) * 200 * dt)
        else some (vx, vy, vz)
      else
        if dist < 15 then
          if dist = 0 then none
          else
            let force := (15 - dist) * 10
            some (vx + dx / dist * force * dt,
                  vy + dy / dist * force * dt,
                  vz + dz / dist * force * dt)
        else some (vx, vy, vz)
    else some (vx, vy, vz)
  afterHand.map (fun w =>
    let fx := w.1 * 0.92
    let fy := w.2.1 * 0.92
    let fz := w.2.2 * 0.92
    (⟨p.x + fx * dt, p.y + fy * dt, p.z + fz * dt⟩, ⟨fx, fy, fz⟩))

/-- JavaScript truncating conversion: round toward zero. -/
def jsTrunc (x : ℝ) : ℝ := if 0 ≤ x then (⌊x⌋ : ℝ) else (⌈x⌉ : ℝ)

/-- The JavaScript remainder operator `a % b` (truncated division). -/
def jsRem (a b : ℝ) : ℝ := a - b * jsTrunc (a / b)

/-- `THREE.MathUtils.euclideanModulo`: `((n % m) + m) % m` with JS `%`. -/
def euclideanMod (n m : ℝ) : ℝ := jsRem (jsRem n m + m) m

/-- The `hue2rgb` helper of `THREE.Color.setHSL`. -/
def hueToRgb (p q t0 : ℝ) : ℝ :=
  let t1 := if t0 < 0 then t0 + 1 else t0
  let t := if 1 < t1 then t1 - 1 else t1
  if t < 1 / 6 then p + (q - p) * 6 * t
  else if t < 1 / 2 then q
  else if t < 2 / 3 then p + (q - p) * 6 * (2 / 3 - t)
  else p

/-- `THREE.Color.setHSL` (hue wrapped by euclidean modulo, saturation and
lightness clamped to [0,1]). -/
def setHSL (h s l : ℝ) : Vec3 :=
  let h := euclideanMod h 1
  let s := max 0 (min 1 s)
  let l := max 0 (min 1 l)
  if s = 0 then ⟨l, l, l⟩
  else
    let p := if l ≤ 0.5 then l * (1 + s) else l + s - l * s
    let q := 2 * l - p
    ⟨hueToRgb q p (h + 1 / 3), hueToRgb q p h, hueToRgb q p (h - 1 / 3)⟩

/-- One particle's color update for one tick of `animate` (lines 209–231 of
`src/components/HandParticlesScene.tsx`).  Runs only while a hand is
present: VICTORY cycles a hue from time and x-position, PINCH applies a heat
gradient from proximity, and otherwise the color relaxes to the two-tone
gradient with probability 0.05 (the draw `r4` stands for `Math.random()`).
Without a hand the color is untouched. -/
def particleColor (isHandPresent : Bool) (gesture : GestureType)
    (mouse : Vec3) (time : ℝ) (r4 : ℝ) (p h c : Vec3) : Vec3 :=
  if isHandPresent then
    let dist := handDist p mouse
    if gesture = GestureType.VICTORY then
      setHSL (jsRem (time * 0.2 + p.x * 0.01) 1) 0.8 0.6
    else if gesture = GestureType.PINCH then
      let intensity := min 1 (40 / (dist + 1))
      ⟨1, 1 - intensity, 1 - intensity⟩
    else
      if r4 < 0.05 then ⟨if 0 < h.x then 0 else 1, 0.8, 1⟩ else c
  else c

/-- C2: with no hand present, one tick with raw elapsed time `raw` uses
dt = min(raw, 0.1) ≤ 0.1 and produces exactly
v' = 0.92·(v + (h − p)·1.5·dt) and p' = p + v'·dt (componentwise), with no
gesture force and the color untouched. -/
theorem particle_tick_no_hand (gesture : GestureType) (gestureStrength : ℝ)
    (mouse : Vec3) (time : ℝ) (i : ℕ) (r1 r2 r3 r4 : ℝ) (p v h c : Vec3)
    (raw : ℝ) :
    particlePhysics false gesture gestureStrength mouse time i r1 r2 r3 p v h
        (clampDt raw) =
      some
        (⟨p.x + 0.92 * (v.x + (h.x - p.x) * 1.5 * clampDt raw) * clampDt raw,
          p.y + 0.92 * (v.y + (h.y - p.y) * 1.5 * clampDt raw) * clampDt raw,
          p.z + 0.92 * (v.z + (h.z - p.z) * 1.5 * clampDt raw) * clampDt raw⟩,
         ⟨0.92 * (v.x + (h.x - p.x) * 1.5 * clampDt raw),
          0.92 * (v.y + (h.y - p.y) * 1.5 * clampDt raw),
          0.92 * (v.z + (h.z - p.z) * 1.5 * clampDt raw)⟩) ∧
    particleColor false gesture mouse time r4 p h c = c ∧
    clampDt raw ≤ 0.1 := by
  refine ⟨?_, rfl, min_le_right _ _⟩
  unfold particlePhysics
  simp only [Bool.false_eq_true, if_false, Option.map_some]
  refine congrArg some (Prod.ext ?_ ?_) <;>
    refine Vec3.ext ?_ ?_ ?_ <;> dsimp only <;> ring

/-- C7 counterexample: with a hand present, gesture CLOSED_FIST, and a
particle sitting exactly at the hand position, the tick computes the force
direction as 0/0 (NaN in the source's IEEE arithmetic) — the resulting
velocity is not a finite value (modelled as `none`). -/
theorem particle_finite_counterexample :
    particlePhysics true GestureType.CLOSED_FIST 1 ⟨0, 0, 0⟩ 0 0 0 0 0
      ⟨0, 0, 0⟩ ⟨0, 0, 0⟩ ⟨0, 0, 0⟩ 0.01 = none := by
  have h0 : handDist ⟨0, 0, 0⟩ ⟨0, 0, 0⟩ = 0 := by
    unfold handDist
    norm_num
  unfold particlePhysics
  norm_num [h0]
  exact fun hAbs => absurd hAbs (by decide)

set_option maxHeartbeats 4000000 in
/-- C7 amended: after any tick in which no hand is present, or in which the
particle's position differs from the hand position, every velocity component
is a well-defined (finite) real number; only a particle exactly at the hand
position under a branch that divides by the distance (CLOSED_FIST or the
passive repulse) produces a non-finite velocity. -/
theorem particle_velocity_finite (isHandPresent : Bool) (gesture : GestureType)
    (gestureStrength : ℝ) (mouse : Vec3) (time : ℝ) (i : ℕ) (r1 r2 r3 : ℝ)
    (p v h : Vec3) (dt : ℝ) (hne : isHandPresent = false ∨ p ≠ mouse) :
    (particlePhysics isHandPresent gesture gestureStrength mouse time i r1 r2 r3
        p v h dt).isSome = true := by
  cases hP : isHandPresent with
  | false => simp [particlePhysics]
  | true =>
      have hpm : p ≠ mouse := by
        rcases hne with hfalse | hpm
        · rw [hP] at hfalse; exact Bool.noConfusion hfalse
        · exact hpm
      have hcomp : p.x ≠ mouse.x ∨ p.y ≠ mouse.y ∨ p.z ≠ mouse.z := by
        by_contra hc
        push_neg at hc
        exact hpm (Vec3.ext hc.1 hc.2.1 hc.2.2)
      have hsum : 0 < (p.x - mouse.x) * (p.x - mouse.x) +
          (p.y - mouse.y) * (p.y - mouse.y) +
          (p.z - mouse.z) * (p.z - mouse.z) := by
        rcases hcomp with hx | hy | hz
        · nlinarith [mul_self_pos.mpr (sub_ne_zero.mpr hx),
            mul_self_nonneg (p.y - mouse.y), mul_self_nonneg (p.z - mouse.z)]
        · nlinarith [mul_self_pos.mpr (sub_ne_zero.mpr hy),
            mul_self_nonneg (p.x - mouse.x), mul_self_nonneg (p.z - mouse.z)]
        · nlinarith [mul_self_pos.mpr (sub_ne_zero.mpr hz),
            mul_self_nonneg (p.x - mouse.x), mul_self_nonneg (p.y - mouse.y)]
      have hdist : handDist p mouse ≠ 0 := by
        unfold handDist
        exact ne_of_gt (Real.sqrt_pos.mpr hsum)
      unfold particlePhysics
      simp only []
      cases gesture <;> split_ifs <;> rfl

/-- C7 amended witness: a particle at ⟨1,0,0⟩ with the hand at the origin
under CLOSED_FIST gets a well-defined velocity. -/
theorem particle_velocity_finite_witness :
    (particlePhysics true GestureType.CLOSED_FIST 1 ⟨0, 0, 0⟩ 0 0 0 0 0
        ⟨1, 0, 0⟩ ⟨0, 0, 0⟩ ⟨0, 0, 0⟩ 0.01).isSome = true :=
  particle_velocity_finite true GestureType.CLOSED_FIST 1 ⟨0, 0, 0⟩ 0 0 0 0 0
    ⟨1, 0, 0⟩ ⟨0, 0, 0⟩ ⟨0, 0, 0⟩ 0.01
    (Or.inr (by norm_num [Vec3.mk.injEq]))

/-- Number of particles (`PARTICLE_COUNT` in
`src/components/HandParticlesScene.tsx`). -/
def PARTICLE_COUNT : ℕ := 25000

/-- The per-tick inputs of one `animate` call, as seen by the particle loop:
hand presence, classified gesture and strength, smoothed hand position,
elapsed simulation time, the tick's `Math.random()` draws (per particle
index), and the clamped dt. -/
structure TickInput where
  isHandPresent : Bool
  gesture : GestureType
  gestureStrength : ℝ
  mouse : Vec3
  time : ℝ
  rand : ℕ → ℝ × ℝ × ℝ
  dt : ℝ

/-- The particle buffers owned by the simulation: per-particle
(position, velocity) — `none` once a component has become non-finite — and
the home-position buffer. -/
structure SystemState where
  particles : List (Option (Vec3 × Vec3))
  homes : List Vec3

/-- One tick of the particle loop of `animate` over the whole buffers: every
particle is updated in place by `particlePhysics` with its own home position;
the home-position buffer is read but never written. -/
def tickSystem (inp : TickInput) (st : SystemState) : SystemState :=
  { particles :=
      st.particles.enum.map (fun e =>
        e.2.bind (fun q =>
          particlePhysics inp.isHandPresent inp.gesture inp.gestureStrength
            inp.mouse inp.time e.1 (inp.rand e.1).1 (inp.rand e.1).2.1
            (inp.rand e.1).2.2 q.1 q.2 (st.homes.getD e.1 ⟨0, 0, 0⟩) inp.dt)),
    homes := st.homes }

/-- One particle's seeded home position in `initThree` (lines 375–392 of
`src/components/HandParticlesScene.tsx`): a random point of the solid sphere
of radius `BOUNDS`, from three uniform draws `u1 u2 u3`. -/
def initHome (u1 u2 u3 : ℝ) : Vec3 :=
  let r := BOUNDS * u1 ^ ((1 : ℝ) / 3)
  let theta := u2 * 2 * Real.pi
  let phi := Real.arccos (2 * u3 - 1)
  ⟨r * Real.sin phi * Real.cos theta, r * Real.sin phi * Real.sin theta,
   r * Real.cos phi⟩

/-- The particle system as constructed by `initThree`: 25,000 particles,
each starting at its home position with zero velocity, with the
home-position buffer holding the same seeded points (`rnd` supplies each
particle's three `Math.random()` draws). -/
def initState (rnd : ℕ → ℝ × ℝ × ℝ) : SystemState :=
  { particles := (List.range PARTICLE_COUNT).map
      (fun i => some (initHome (rnd i).1 (rnd i).2.1 (rnd i).2.2, ⟨0, 0, 0⟩)),
    homes := (List.range PARTICLE_COUNT).map
      (fun i => initHome (rnd i).1 (rnd i).2.1 (rnd i).2.2) }

lemma tickSystem_homes (inp : TickInput) (st : SystemState) :
    (tickSystem inp st).homes = st.homes := rfl

lemma tickSystem_count (inp : TickInput) (st : SystemState) :
    (tickSystem inp st).particles.length = st.particles.length := by
  simp [tickSystem]

lemma ticks_homes (inputs : List TickInput) (st : SystemState) :
    (inputs.foldl (fun s inp => tickSystem inp s) st).homes = st.homes := by
  induction inputs generalizing st with
  | nil => rfl
  | cons a t ih => rw [List.foldl_cons, ih, tickSystem_homes]

lemma ticks_count (inputs : List TickInput) (st : SystemState) :
    (inputs.foldl (fun s inp => tickSystem inp s) st).particles.length =
      st.particles.length := by
  induction inputs generalizing st with
  | nil => rfl
  | cons a t ih => rw [List.foldl_cons, ih, tickSystem_count]

/-- C6: after any sequence of ticks — any hand presence, gesture, strength,
random draws, and dt per tick — the particle count is still exactly 25,000
and the home-position buffer is identical to the one seeded at construction:
the tick never writes it. -/
theorem particle_conservation (rnd : ℕ → ℝ × ℝ × ℝ) (inputs : List TickInput) :
    (inputs.foldl (fun s inp => tickSystem inp s) (initState rnd)).particles.length =
      25000 ∧
    (inputs.foldl (fun s inp => tickSystem inp s) (initState rnd)).homes =
      (initState rnd).homes := by
  constructor
  · rw [ticks_count]
    simp [initState, PARTICLE_COUNT]
  · exact ticks_homes inputs (initState rnd)

end

end HandMagic
